import Mathlib

/-!
Shallow embedding of the `vtkplotter` wrapper layer (`vtkplotter/base.py`,
`vtkplotter/volume.py`).

Python floats are modelled as rationals (`ℚ`); the wrapped VTK objects
(image data, mappers, volume properties, transfer functions) are modelled as
explicit records holding exactly the attributes the wrapper reads and writes.
VTK filter algorithms themselves (thresholding, flipping, resampling, ...)
live in the wrapped native library, so their output is abstracted as a
function parameter, while the *configuration* that the wrapper performs on
each filter object is embedded faithfully.

Python exceptions and the `colors.printc` console output are modelled with a
`Py` monad: an exception monad over a console-log state.  `colors.printc`,
`colors.getColor`, `utils.isSequence` and `utils.versor` belong to modules of
this repository that are not under `src/`; where their behaviour matters it
is modelled from the spec (see the individual doc comments).
-/

/-- A Python runtime exception, by class. -/
inductive PyError where
  | runtimeError
  | zeroDivisionError
  | attributeError
  | valueError
  | typeError
  deriving DecidableEq, Repr

/-- The `Py` monad: Python control flow with exceptions (`throw`) and a
console log (the list of messages printed so far by `colors.printc`). -/
abbrev Py (α : Type) := ExceptT PyError (StateM (List String)) α

/-- Run a Python computation on an empty console: final result and the
messages printed (also kept when an exception escapes). -/
def pyRun {α : Type} (x : Py α) : Except PyError α × List String :=
  (ExceptT.run x).run []

/-- `Modelled from the spec:` `colors.printc` (module `vtkplotter/colors.py`,
not under `src/`) prints a colored console message; the embedding records the
message text on the console log. -/
def printc (msg : String) : Py Unit :=
  modify (fun log => log ++ [msg])

/-- Python true division (`from __future__ import division`): raises
`ZeroDivisionError` on a zero denominator. -/
def pydiv (a b : ℚ) : Py ℚ :=
  if b = 0 then throw .zeroDivisionError else pure (a / b)

/-- Python `str.lower()` (ASCII lowering, character by character). -/
def pyLower (s : String) : String :=
  String.mk (s.data.map Char.toLower)

/-- The value a wrapper method returns to its Python caller: the object
itself (`return self`), `None`, or a plain value (a getter result). -/
inductive PyRet where
  | self
  | noneVal
  | bool (b : Bool)
  | int (z : ℤ)
  | rat (q : ℚ)
  | triple (t : ℚ × ℚ × ℚ)
  | strOpt (s : Option String)
  deriving DecidableEq, Repr

/-- An RGB color, components in [0,1]. -/
abbrev RGB := ℚ × ℚ × ℚ

/-- A 3-vector of Python floats. -/
abbrev Triple := ℚ × ℚ × ℚ

/-- The slice of a `vtkImageData` object that the wrapper reads and writes:
grid dimensions, voxel spacing, origin, the scalar range of the active
scalars, point/cell counts, and the named point/cell data arrays. -/
structure ImageData where
  dims : ℕ × ℕ × ℕ
  spacing : Triple
  origin : Triple
  scalarRange : ℚ × ℚ
  nPoints : ℕ
  nCells : ℕ
  pointArrays : List (String × List ℚ)
  cellArrays : List (String × List ℚ)
  pointVectors : List (String × List Triple)
  cellVectors : List (String × List Triple)
  activePointScalars : Option String
  activeCellScalars : Option String
  activePointVectors : Option String
  activeCellVectors : Option String
  deriving DecidableEq, Repr

/-- A default-constructed (empty) `vtkImageData`, as produced by a VTK
algorithm whose input port was never connected. -/
def ImageData.empty : ImageData :=
  { dims := (0, 0, 0), spacing := (1, 1, 1), origin := (0, 0, 0),
    scalarRange := (0, 1), nPoints := 0, nCells := 0,
    pointArrays := [], cellArrays := [], pointVectors := [], cellVectors := [],
    activePointScalars := none, activeCellScalars := none,
    activePointVectors := none, activeCellVectors := none }

/-- The slice of a VTK volume mapper that the wrapper touches.
`hasUseJittering` models the Python `hasattr(self._mapper, 'SetUseJittering')`
check: the GPU ray-cast mappers expose jittering, the fixed-point and
projected-tetrahedra mappers do not. -/
structure VolumeMapper where
  inputData : Option ImageData
  blendMode : ℤ
  hasUseJittering : Bool
  useJittering : Bool
  hasScalarVisibility : Bool
  arrayName : String
  scalarMode : ℤ
  scalarVisibility : Bool
  scalarRangeSetting : Option (ℚ × ℚ)
  deriving DecidableEq, Repr

/-- The slice of `vtkVolumeProperty` the wrapper touches: the color /
scalar-opacity / gradient-opacity transfer functions (kept as the list of
control points in insertion order), the gradient-opacity disable flag, the
interpolation type and the lighting constants. -/
structure VolumeProperty where
  colorTF : List (ℚ × RGB)
  scalarOpacity : List (ℚ × ℚ)
  gradientOpacity : List (ℚ × ℚ)
  disableGradientOpacity : Bool
  interpolationLinear : Bool
  shade : Bool
  ambient : ℚ
  diffuse : ℚ
  specular : ℚ
  specularPower : ℚ
  specularColor : RGB
  hasGetColor : Bool
  color : RGB
  lightingOn : Bool
  deriving DecidableEq, Repr

/-- Argument of `Volume.alpha` / `Volume.alphaGradient`: either a single
scalar or a sequence of values (the `utils.isSequence` dispatch). -/
inductive AlphaArg where
  | scalar (a : ℚ)
  | seq (l : List ℚ)
  deriving DecidableEq, Repr

/-- Argument of `Volume.color`: a sequence of color specs, a string (color
name or colormap name), an integer color index, or anything else (the final
`else` branch of the Python type dispatch). -/
inductive ColorArg where
  | seq (l : List String)
  | str (s : String)
  | int (n : ℤ)
  | other
  deriving DecidableEq, Repr

/-- `Modelled from the spec:` the color utilities of `vtkplotter/colors.py`
(not under `src/`): `getColor` resolves a color spec to RGB, the color
dictionaries decide `isKnownName`, `_mapscales` availability, and `colorMap`
samples a named matplotlib colormap.  Their values never decide a claim; the
wrapper only forwards them. -/
structure ColorsModule where
  getColor : String → RGB
  getColorInt : ℤ → RGB
  isKnownName : String → Bool
  hasMapscales : Bool
  colorMap : ℚ → String → ℚ → ℚ → RGB

/-- The state of a `Volume` object: the mixed-in `ActorBase` bookkeeping
fields, the `vtkProp3D` position/pickability, the wrapped mapper and volume
property, and the `Volume`-specific cached fields. -/
structure VolumeState where
  imagedata : ImageData
  mapper : VolumeMapper
  prop : VolumeProperty
  position : Triple
  pickableFlag : Bool
  timeVal : ℚ
  legendVal : Option String
  modeCache : ℤ
  colorCache : Option ColorArg
  alphaCache : Option AlphaArg
  alphaGradCache : Option (Option AlphaArg)
  deriving DecidableEq, Repr

namespace Volume

/-- `Volume.alpha` (volume.py):  installs a scalar-opacity transfer function
on the volume property.  For a sequence the i-th point is placed at
`smin + (smax - smin) * i / (len(alpha) - 1)`; for a single scalar two points
at `smin` and `smax` carry the constant value. -/
def alpha (v : VolumeState) (alpha : AlphaArg) : Py (VolumeState × PyRet) := do
  let smin := v.imagedata.scalarRange.1
  let smax := v.imagedata.scalarRange.2
  let v := { v with alphaCache := some alpha }
  let otf ← match alpha with
    | .seq l =>
        l.enum.mapM (fun p => do
          let q ← pydiv ((smax - smin) * (p.1 : ℚ)) ((l.length : ℚ) - 1)
          pure (smin + q, p.2))
    | .scalar a =>
        pure [(smin, a), (smax, a)]
  pure ({ v with prop :=
    { v.prop with scalarOpacity := otf, interpolationLinear := true } }, .self)

/-- `Volume.alphaGradient` (volume.py): installs a gradient-opacity transfer
function.  `None` disables gradient opacity.  Note the source fixes
`smin, smax = 0, 255` (the scalar-range read is commented out). -/
def alphaGradient (v : VolumeState) (alphaGrad : Option AlphaArg) :
    Py (VolumeState × PyRet) := do
  let v := { v with alphaGradCache := some alphaGrad }
  match alphaGrad with
  | none =>
      pure ({ v with prop := { v.prop with disableGradientOpacity := true } },
        .self)
  | some ag => do
      let v := { v with prop :=
        { v.prop with disableGradientOpacity := false } }
      let smin : ℚ := 0
      let smax : ℚ := 255
      let gotf ← match ag with
        | .seq l =>
            l.enum.mapM (fun p => do
              let q ← pydiv ((smax - smin) * (p.1 : ℚ)) ((l.length : ℚ) - 1)
              pure (smin + q, p.2))
        | .scalar a =>
            pure [(smin, a), (smax, a)]
      pure ({ v with prop :=
        { v.prop with gradientOpacity := gotf, interpolationLinear := true } },
        .self)

/-- `Volume.color` (volume.py): installs a color transfer function.  A
sequence of colors is spread over the scalar range; a known color name or an
integer gives a constant color; an unknown string falls back to colormap
sampling over `linspace(smin, smax, 64)`; any other input type only prints a
message (no exception is raised) and leaves the transfer function empty. -/
def color (cm : ColorsModule) (v : VolumeState) (col : ColorArg) :
    Py (VolumeState × PyRet) := do
  let smin := v.imagedata.scalarRange.1
  let smax := v.imagedata.scalarRange.2
  let v := { v with colorCache := some col }
  let ctf ← match col with
    | .seq l =>
        l.enum.mapM (fun p => do
          let rgb := cm.getColor p.2
          let q ← pydiv ((smax - smin) * (p.1 : ℚ)) ((l.length : ℚ) - 1)
          pure (smin + q, rgb))
    | .str s =>
        if cm.isKnownName s then
          pure [(smin, cm.getColor s), (smax, cm.getColor s)]
        else if cm.hasMapscales then
          pure ((List.range 64).map (fun k =>
            let x := smin + (smax - smin) * (k : ℚ) / 63
            (x, cm.colorMap x s smin smax)))
        else
          pure []
    | .int n =>
        pure [(smin, cm.getColorInt n), (smax, cm.getColorInt n)]
    | .other => do
        printc "volume.color(): unknown input type:"
        pure []
  pure ({ v with prop :=
    { v.prop with colorTF := ctf, interpolationLinear := true } }, .self)

end Volume

/-- `np.min` of an array: raises `ValueError` on an empty array. -/
def npMin (l : List ℚ) : Py ℚ :=
  match l with
  | [] => throw .valueError
  | x :: xs => pure (xs.foldl min x)

/-- `np.max` of an array: raises `ValueError` on an empty array. -/
def npMax (l : List ℚ) : Py ℚ :=
  match l with
  | [] => throw .valueError
  | x :: xs => pure (xs.foldl max x)

/-- In Python, `self._imagedata` and the mapper input are (after `_update`)
the same heap object, so an in-place mutation done through the
`self._imagedata` reference is seen through the mapper as well.  This applies
`f` to that object, updating every alias. -/
def VolumeState.mutateImagedata (v : VolumeState) (f : ImageData → ImageData) :
    VolumeState :=
  { v with imagedata := f v.imagedata,
           mapper := { v.mapper with
             inputData := if v.mapper.inputData = some v.imagedata
                          then some (f v.imagedata)
                          else v.mapper.inputData } }

/-- In-place mutation done through the `self.inputdata()` (mapper input)
reference; if `self._imagedata` is the same object, it sees the mutation. -/
def VolumeState.mutateInputdata (v : VolumeState) (f : ImageData → ImageData) :
    VolumeState :=
  { v with mapper := { v.mapper with
             inputData := v.mapper.inputData.map f },
           imagedata := if v.mapper.inputData = some v.imagedata
                        then f v.imagedata
                        else v.imagedata }

/-- Argument forms of `ActorBase.pos`: no argument (getter), a packed
3-sequence `pos(p)`, two coordinates `pos(x, y)` (z defaults to 0), or three
coordinates `pos(x, y, z)`. -/
inductive PosArg where
  | noArgs
  | vec (t : Triple)
  | xy (x y : ℚ)
  | xyz (x y z : ℚ)
  deriving DecidableEq, Repr

/-- Argument of `ActorBase.addCellScalars`: a numeric array or (string case)
the name of an existing point-data array to copy. -/
inductive ScalarsArg where
  | arr (l : List ℚ)
  | name (s : String)
  deriving DecidableEq, Repr

namespace ActorBase

/-- `ActorBase.inputdata` (base.py): the mapper's input data object. -/
def inputdata (v : VolumeState) : Option ImageData :=
  v.mapper.inputData

/-- `ActorBase.time` (base.py): set/get the object's absolute time. -/
def time (v : VolumeState) (t : Option ℚ) : VolumeState × PyRet :=
  match t with
  | none => (v, .rat v.timeVal)
  | some t => ({ v with timeVal := t }, .self)

/-- `ActorBase.pos` (base.py): set/get the object position (the trail/shadow
bookkeeping, inactive on a fresh object, is not modelled). -/
def pos (v : VolumeState) (arg : PosArg) : VolumeState × PyRet :=
  match arg with
  | .noArgs => (v, .triple v.position)
  | .vec t => ({ v with position := t }, .self)
  | .xy x y => ({ v with position := (x, y, 0) }, .self)
  | .xyz x y z => ({ v with position := (x, y, z) }, .self)

/-- `ActorBase.pickable` (base.py): set/get the pickable property. -/
def pickable (v : VolumeState) (value : Option Bool) : VolumeState × PyRet :=
  match value with
  | none => (v, .bool v.pickableFlag)
  | some b => ({ v with pickableFlag := b }, .self)

/-- `ActorBase.legend` (base.py): set/get the legend text.  A falsy argument
(`None` or the empty string) makes the method return the stored text. -/
def legend (v : VolumeState) (txt : Option String) : VolumeState × PyRet :=
  match txt with
  | some s =>
      if s = "" then (v, .strOpt v.legendVal)
      else ({ v with legendVal := some s }, .self)
  | none => (v, .strOpt v.legendVal)

/-- `ActorBase.lighting` (base.py): preset lighting styles and individual
lighting constants.  An unknown non-empty style prints two messages and
raises `RuntimeError`. -/
def lighting (cm : ColorsModule) (v : VolumeState) (style : String)
    (ambient diffuse specular specularPower : Option ℚ)
    (specularColor : Option String) (enabled : Bool) :
    Py (VolumeState × PyRet) := do
  let pr := v.prop
  let pr ←
    if style ≠ "" then do
      let c := if pr.hasGetColor then pr.color else ((1 : ℚ), 1, 99/100)
      let c := if v.mapper.hasScalarVisibility && v.mapper.scalarVisibility
               then ((1 : ℚ), 1, 99/100) else c
      let pars ←
        (if style = "metallic" then pure ((1:ℚ)/10, (3:ℚ)/10, (1:ℚ), (10:ℚ), c)
        else if style = "plastic" then pure ((3:ℚ)/10, 4/10, 3/10, 5, c)
        else if style = "shiny" then pure ((2:ℚ)/10, 6/10, 8/10, 50, c)
        else if style = "glossy" then
          pure ((1:ℚ)/10, 7/10, 9/10, 90, ((1:ℚ), 1, 99/100))
        else if style = "ambient" then
          pure ((1:ℚ), 0, 0, 0, ((1:ℚ), 1, 1))
        else if style = "default" then
          pure ((1:ℚ)/10, 1, 5/100, 5, c)
        else do
          printc "Error in lighting(): Available styles are"
          printc " [default, metallic, plastic, shiny, glossy, ambient]"
          throw PyError.runtimeError)
      let pr := { pr with ambient := pars.1, diffuse := pars.2.1,
                          specular := pars.2.2.1,
                          specularPower := pars.2.2.2.1 }
      pure (if pr.hasGetColor
            then { pr with specularColor := pars.2.2.2.2 } else pr)
    else pure pr
  let pr := match ambient with | some a => { pr with ambient := a } | none => pr
  let pr := match diffuse with | some d => { pr with diffuse := d } | none => pr
  let pr := match specular with
            | some s => { pr with specular := s } | none => pr
  let pr := match specularPower with
            | some s => { pr with specularPower := s } | none => pr
  let pr := match specularColor with
            | some s => { pr with specularColor := cm.getColor s } | none => pr
  let pr := if !enabled then { pr with lightingOn := false } else pr
  pure ({ v with prop := pr }, .self)

end ActorBase

/-- `vtkFieldData.AddArray`: adds a named array, replacing an existing array
of the same name. -/
def addArray {β : Type} (arrays : List (String × β)) (name : String)
    (arr : β) : List (String × β) :=
  if arrays.any (fun p => p.1 = name) then
    arrays.map (fun p => if p.1 = name then (name, arr) else p)
  else
    arrays ++ [(name, arr)]

namespace ActorBase

/-- `ActorBase.addPointScalars` (base.py): attach a point scalar array.  A
length mismatch against the point count prints a message and raises
`RuntimeError`.  `autoResetScalarRange` models the `settings` flag of the
same name (module not under `src/`). -/
def addPointScalars (autoResetScalarRange : Bool) (v : VolumeState)
    (scalars : List ℚ) (name : String) : Py (VolumeState × PyRet) := do
  let data ← match inputdata v with
    | none => throw PyError.attributeError
    | some d => pure d
  if scalars.length ≠ data.nPoints then do
    printc "~times addPointScalars(): Number of scalars != nr. of points"
    throw PyError.runtimeError
  let v := v.mutateInputdata (fun d =>
    { d with pointArrays := addArray d.pointArrays name scalars,
             activePointScalars := some name })
  let v := { v with mapper := { v.mapper with arrayName := name } }
  let v ←
    if autoResetScalarRange then do
      let mn ← npMin scalars
      let mx ← npMax scalars
      pure { v with mapper :=
        { v.mapper with scalarRangeSetting := some (mn, mx) } }
    else pure v
  let v := { v with mapper :=
    { v.mapper with scalarMode := 1, scalarVisibility := true } }
  pure (v, .self)

/-- `ActorBase.addCellScalars` (base.py): attach a cell scalar array (or
copy a named point array).  A length mismatch against the cell count prints
a message and raises `RuntimeError`. -/
def addCellScalars (autoResetScalarRange : Bool) (v : VolumeState)
    (scalars : ScalarsArg) (name : String) : Py (VolumeState × PyRet) := do
  let data ← match inputdata v with
    | none => throw PyError.attributeError
    | some d => pure d
  let scalars ← match scalars with
    | .name s =>
        match data.pointArrays.lookup s with
        | none => throw PyError.attributeError
        | some a => pure a
    | .arr l => pure l
  if scalars.length ≠ data.nCells then do
    printc "addCellScalars() Error: Number of scalars != nr. of cells"
    throw PyError.runtimeError
  let v := v.mutateInputdata (fun d =>
    { d with cellArrays := addArray d.cellArrays name scalars,
             activeCellScalars := some name })
  let v := { v with mapper := { v.mapper with arrayName := name } }
  let v ←
    if autoResetScalarRange then do
      let mn ← npMin scalars
      let mx ← npMax scalars
      pure { v with mapper :=
        { v.mapper with scalarRangeSetting := some (mn, mx) } }
    else pure v
  let v := { v with mapper :=
    { v.mapper with scalarMode := 2, scalarVisibility := true } }
  pure (v, .self)

/-- `ActorBase.addPointVectors` (base.py): attach a point vector field.  A
length mismatch against the point count prints a message and raises
`RuntimeError`. -/
def addPointVectors (v : VolumeState) (vectors : List Triple)
    (name : String) : Py (VolumeState × PyRet) := do
  let data ← match inputdata v with
    | none => throw PyError.attributeError
    | some d => pure d
  if vectors.length ≠ data.nPoints then do
    printc "addPointVectors Error: Number of vectors != nr. of points"
    throw PyError.runtimeError
  let v := v.mutateInputdata (fun d =>
    { d with pointVectors := addArray d.pointVectors name vectors,
             activePointVectors := some name })
  pure (v, .self)

/-- `ActorBase.addCellVectors` (base.py): attach a cell vector field.  A
length mismatch against the cell count prints a message and raises
`RuntimeError` (the source reuses the `addPointVectors` message text). -/
def addCellVectors (v : VolumeState) (vectors : List Triple)
    (name : String) : Py (VolumeState × PyRet) := do
  let data ← match inputdata v with
    | none => throw PyError.attributeError
    | some d => pure d
  if vectors.length ≠ data.nCells then do
    printc "addPointVectors Error: Number of vectors != nr. of cells"
    throw PyError.runtimeError
  let v := v.mutateInputdata (fun d =>
    { d with cellVectors := addArray d.cellVectors name vectors,
             activeCellVectors := some name })
  pure (v, .self)

end ActorBase

/-- Python `int()` applied to a float: truncation toward zero. -/
def pyInt (q : ℚ) : ℤ :=
  q.num.tdiv q.den

/-- Threshold interval configured on a `vtkImageThreshold` filter by
`Volume.threshold`. -/
inductive ThresholdMode where
  | between (a b : ℚ)
  | byLower (a : ℚ)
  | byUpper (b : ℚ)
  | unset
  deriving DecidableEq, Repr

/-- The slice of a `vtkImageResample` filter that `Volume.resample`
configures.  A freshly constructed filter has no input connection
(`input = none`) until `SetInputData` is called on it. -/
structure ImageResample where
  input : Option ImageData
  axisOutputSpacing : List (ℕ × ℚ)
  interpolate : Bool
  interpolationMode : ℤ
  optimization : Bool
  deriving DecidableEq, Repr

/-- A freshly constructed `vtkImageResample()`. -/
def ImageResample.init : ImageResample :=
  { input := none, axisOutputSpacing := [], interpolate := false,
    interpolationMode := 1, optimization := false }

/-- `GetOutput()` after `Update()`: a filter whose input port was never
connected produces a default (empty) image; otherwise the wrapped library
computes the resampled image (abstracted by `sem`). -/
def ImageResample.getOutput (sem : ImageData → ImageResample → ImageData)
    (r : ImageResample) : ImageData :=
  match r.input with
  | none => ImageData.empty
  | some img => sem img r

/-- One element of `Volume.append`'s `volumes` argument: a raw image-data
object or another `Volume`. -/
inductive AppendInput where
  | imgData (d : ImageData)
  | volume (w : VolumeState)

/-- The image data contributed by one `append` input. -/
def AppendInput.getImage : AppendInput → ImageData
  | .imgData d => d
  | .volume w => w.imagedata

/-- `Volume.append`'s `axis` argument: a string name or a raw integer. -/
inductive AxisArg where
  | str (s : String)
  | int (z : ℤ)
  deriving DecidableEq, Repr

namespace Volume

/-- `Volume._update` (volume.py): install `img` as the stored image data and
as the mapper input (the `Modified()` notification has no modelled
observable). -/
def _update (v : VolumeState) (img : ImageData) : VolumeState :=
  { v with imagedata := img,
            mapper := { v.mapper with inputData := some img } }

/-- `Volume.imagedata` (volume.py): the underlying image data object. -/
def imagedata (v : VolumeState) : ImageData :=
  v.imagedata

/-- `Volume.dimensions` (volume.py): number of voxels per axis. -/
def dimensions (v : VolumeState) : ℕ × ℕ × ℕ :=
  v.imagedata.dims

/-- `Volume.spacing` (volume.py): set (in place, on the image data object)
or get the voxel spacing. -/
def spacing (v : VolumeState) (s : Option Triple) : VolumeState × PyRet :=
  match s with
  | some s => (v.mutateImagedata (fun d => { d with spacing := s }), .self)
  | none => (v, .triple v.imagedata.spacing)

/-- `Volume.jittering` (volume.py): set/get ray-jittering on the mapper.
When the mapper does not expose `SetUseJittering` the method returns
Python `None`. -/
def jittering (v : VolumeState) (status : Option Bool) :
    VolumeState × PyRet :=
  if v.mapper.hasUseJittering then
    match status with
    | none => (v, .bool v.mapper.useJittering)
    | some b =>
        ({ v with mapper := { v.mapper with useJittering := b } }, .self)
  else
    (v, .noneVal)

/-- `Volume.mode` (volume.py): set/get the blend mode; composite mode also
switches shading on, applies the `shiny` lighting preset and enables
jittering, maximum-projection mode switches shading off and enables
jittering. -/
def mode (cm : ColorsModule) (v : VolumeState) (m : Option ℤ) :
    Py (VolumeState × PyRet) := do
  match m with
  | none => pure (v, .int v.mapper.blendMode)
  | some m => do
      let v := { v with mapper := { v.mapper with blendMode := m },
                        modeCache := m }
      if m = 0 then do
        let v := { v with prop := { v.prop with shade := true } }
        let r ← ActorBase.lighting cm v "shiny" none none none none
          none true
        let v := r.1
        let v := (jittering v (some true)).1
        pure (v, .self)
      else if m = 1 then do
        let v := { v with prop := { v.prop with shade := false } }
        let v := (jittering v (some true)).1
        pure (v, .self)
      else
        pure (v, .self)

/-- `Volume.resample` (volume.py): configures a `vtkImageResample` filter —
axis output spacings for the axes whose spacing changes, linear
interpolation, optimization — calls `Update()` and installs the filter
output.  Note: the source never calls `SetInputData` on the filter, so its
input port stays unconnected.  The final filter object is returned alongside
for inspection.  (`self.GetSpacing()` is read as the volume's voxel
spacing.) -/
def resample (sem : ImageData → ImageResample → ImageData) (v : VolumeState)
    (newSpacing : Triple) (interpolation : ℤ) :
    VolumeState × ImageResample :=
  let rsp := ImageResample.init
  let oldsp := v.imagedata.spacing
  let rsp := if oldsp.1 ≠ newSpacing.1 then
    { rsp with axisOutputSpacing :=
        rsp.axisOutputSpacing ++ [(0, newSpacing.1)] } else rsp
  let rsp := if oldsp.2.1 ≠ newSpacing.2.1 then
    { rsp with axisOutputSpacing :=
        rsp.axisOutputSpacing ++ [(1, newSpacing.2.1)] } else rsp
  let rsp := if oldsp.2.2 ≠ newSpacing.2.2 then
    { rsp with axisOutputSpacing :=
        rsp.axisOutputSpacing ++ [(2, newSpacing.2.2)] } else rsp
  let rsp := { rsp with interpolate := true,
                        interpolationMode := interpolation,
                        optimization := true }
  (_update v (rsp.getOutput sem), rsp)

/-- `Volume.threshold` (volume.py): configures a `vtkImageThreshold` filter
on the current image data and installs its output (`sem` abstracts the
wrapped thresholding algorithm). -/
def threshold (sem : ImageData → ThresholdMode → ℚ → ImageData)
    (v : VolumeState) (vmin vmax : Option ℚ) (replaceWith : ℚ) :
    VolumeState :=
  let tmode := match vmin, vmax with
    | some a, some b => ThresholdMode.between a b
    | some a, none => ThresholdMode.byLower a
    | none, some b => ThresholdMode.byUpper b
    | none, none => ThresholdMode.unset
  _update v (sem v.imagedata tmode replaceWith)

/-- `Volume.crop` (volume.py): configures a `vtkExtractVOI` filter on the
current image data — either with the explicit `VOI` or with voxel bounds
computed from the crop fractions — and installs its output. -/
def crop (sem : ImageData → ℤ × ℤ × ℤ × ℤ × ℤ × ℤ → ImageData)
    (v : VolumeState) (top bottom right left front back : Option ℚ)
    (VOI : Option (ℤ × ℤ × ℤ × ℤ × ℤ × ℤ)) : VolumeState :=
  let voi := match VOI with
    | some w => w
    | none =>
        let d0 := v.imagedata.dims.1
        let d1 := v.imagedata.dims.2.1
        let d2 := v.imagedata.dims.2.2
        let bx0 := match left with
          | some f => pyInt (((d0 : ℚ) - 1) * f) | none => 0
        let bx1 := match right with
          | some f => pyInt (((d0 : ℚ) - 1) * (1 - f)) | none => (d0 : ℤ) - 1
        let by0 := match back with
          | some f => pyInt (((d1 : ℚ) - 1) * f) | none => 0
        let by1 := match front with
          | some f => pyInt (((d1 : ℚ) - 1) * (1 - f)) | none => (d1 : ℤ) - 1
        let bz0 := match bottom with
          | some f => pyInt (((d2 : ℚ) - 1) * f) | none => 0
        let bz1 := match top with
          | some f => pyInt (((d2 : ℚ) - 1) * (1 - f)) | none => (d2 : ℤ) - 1
        (bx0, bx1, by0, by1, bz0, bz1)
  _update v (sem v.imagedata voi)

/-- `Volume.append` (volume.py): configures a `vtkImageAppend` filter whose
inputs are the volume's own image data followed by the given images/volumes
and installs its output.  A string axis name outside `x`/`y`/`z` reaches
`SetAppendAxis` unconverted and fails with a `TypeError`. -/
def append (sem : List ImageData → Bool → ℤ → ImageData) (v : VolumeState)
    (volumes : List AppendInput) (axis : AxisArg)
    (preserveExtents : Bool) : Py VolumeState := do
  let inputs := v.imagedata :: volumes.map AppendInput.getImage
  let ax ← match axis with
    | .str s =>
        if s = "x" then pure (0 : ℤ)
        else if s = "y" then pure 1
        else if s = "z" then pure 2
        else throw PyError.typeError
    | .int z => pure z
  pure (_update v (sem inputs preserveExtents ax))

/-- `Volume.permuteAxes` (volume.py): configures a `vtkImagePermute` filter
on the current image data and installs its output. -/
def permuteAxes (sem : ImageData → ℤ → ℤ → ℤ → ImageData) (v : VolumeState)
    (x y z : ℤ) : VolumeState :=
  _update v (sem v.imagedata x y z)

/-- `Volume.resize` (volume.py): resizes through a `vtkImageResize` filter,
then restores the aspect ratio by setting the output spacing to
`old_spacing * old_dims / new_dims` before installing the output.  (numpy
float division by a zero dimension would give `inf`; in `ℚ` it gives 0 —
no claim evaluates that corner.) -/
def resize (sem : ImageData → ℕ × ℕ × ℕ → ImageData) (v : VolumeState)
    (newdims : ℕ × ℕ × ℕ) : VolumeState :=
  let old_dims := v.imagedata.dims
  let old_spac := v.imagedata.spacing
  let img := sem v.imagedata newdims
  let new_spac : Triple :=
    (old_spac.1 * (old_dims.1 : ℚ) / (newdims.1 : ℚ),
     old_spac.2.1 * (old_dims.2.1 : ℚ) / (newdims.2.1 : ℚ),
     old_spac.2.2 * (old_dims.2.2 : ℚ) / (newdims.2.2 : ℚ))
  let img := { img with spacing := new_spac }
  _update v img

/-- `Volume.normalize` (volume.py): runs a `vtkImageNormalize` filter on the
current image data and installs its output. -/
def normalize (sem : ImageData → ImageData) (v : VolumeState) : VolumeState :=
  _update v (sem v.imagedata)

/-- `Volume.scaleVoxels` (volume.py): runs a `vtkImageReslice` filter with a
scalar scale on the current image data and installs its output. -/
def scaleVoxels (sem : ImageData → ℚ → ImageData) (v : VolumeState)
    (scale : ℚ) : VolumeState :=
  _update v (sem v.imagedata scale)

/-- `Volume.mirror` (volume.py): flips the image along a cartesian axis via
a `vtkImageFlip` filter; any other axis name prints a message and raises
`RuntimeError`. -/
def mirror (flip : ImageData → ℕ → ImageData) (v : VolumeState)
    (axis : String) : Py VolumeState := do
  let img := v.imagedata
  let fa ←
    if pyLower axis = "x" then pure 0
    else if pyLower axis = "y" then pure 1
    else if pyLower axis = "z" then pure 2
    else do
      printc "~times Error in mirror(): mirror must be set to x, y, z or n."
      throw PyError.runtimeError
  pure (_update v (flip img fa))

/-- `Volume.xSlice` (volume.py): the geometry filter configuration (input
data and extent) for the x-slice at index `i`; an index past the last slice
is clamped to `nx - 1`. -/
def xSlice (v : VolumeState) (i : ℤ) : ImageData × (ℤ × ℤ × ℤ × ℤ × ℤ × ℤ) :=
  let nx := v.imagedata.dims.1
  let ny := v.imagedata.dims.2.1
  let nz := v.imagedata.dims.2.2
  let i := if i > (nx : ℤ) - 1 then (nx : ℤ) - 1 else i
  (v.imagedata, (i, i, 0, ny, 0, nz))

/-- `Volume.ySlice` (volume.py): the geometry filter configuration for the
y-slice at index `j`; an index past the last slice is clamped to `ny - 1`. -/
def ySlice (v : VolumeState) (j : ℤ) : ImageData × (ℤ × ℤ × ℤ × ℤ × ℤ × ℤ) :=
  let nx := v.imagedata.dims.1
  let ny := v.imagedata.dims.2.1
  let nz := v.imagedata.dims.2.2
  let j := if j > (ny : ℤ) - 1 then (ny : ℤ) - 1 else j
  (v.imagedata, (0, nx, j, j, 0, nz))

/-- `Volume.zSlice` (volume.py): the geometry filter configuration for the
z-slice at index `k`; an index past the last slice is clamped to `nz - 1`. -/
def zSlice (v : VolumeState) (k : ℤ) : ImageData × (ℤ × ℤ × ℤ × ℤ × ℤ × ℤ) :=
  let nx := v.imagedata.dims.1
  let ny := v.imagedata.dims.2.1
  let nz := v.imagedata.dims.2.2
  let k := if k > (nz : ℤ) - 1 then (nz : ℤ) - 1 else k
  (v.imagedata, (0, nx, 0, ny, k, k))

/-- `Volume.__init__` (volume.py), image-data input branch: applies the
optional origin/spacing/shape overrides, stores the image data, links it as
the mapper input, and runs the
`self.mode(mode).color(c).alpha(alpha).alphaGradient(alphaGradient)` chain.
The freshly built mapper and default volume property are parameters. -/
def init (cm : ColorsModule) (img : ImageData) (c : ColorArg)
    (alpha0 : AlphaArg) (alphaGrad0 : Option AlphaArg) (mode0 : ℤ)
    (origin0 spacing0 : Option Triple) (shape0 : Option (ℕ × ℕ × ℕ))
    (mapper0 : VolumeMapper) (prop0 : VolumeProperty) : Py VolumeState := do
  let img := match origin0 with
    | some o => { img with origin := o } | none => img
  let img := match spacing0 with
    | some s => { img with spacing := s } | none => img
  let img := match shape0 with
    | some s => { img with dims := s } | none => img
  let v : VolumeState :=
    { imagedata := img,
      mapper := { mapper0 with inputData := some img },
      prop := prop0, position := (0, 0, 0), pickableFlag := true,
      timeVal := 0, legendVal := none, modeCache := 0, colorCache := none,
      alphaCache := none, alphaGradCache := none }
  let r1 ← mode cm v (some mode0)
  let v := r1.1
  let r2 ← color cm v c
  let v := r2.1
  let r3 ← alpha v alpha0
  let v := r3.1
  let r4 ← alphaGradient v alphaGrad0
  let v := r4.1
  pure { v with modeCache := mode0, colorCache := some c,
                alphaCache := some alpha0,
                alphaGradCache := some alphaGrad0 }

end Volume

namespace ActorBase

/-- `Modelled from the spec:` `utils.versor` (module `vtkplotter/utils.py`,
not under `src/`) returns the normalized axis (the spec: "rotation by angle
about the normalized axis"). -/
noncomputable def versor (a : Fin 3 → ℝ) : Fin 3 → ℝ :=
  fun i => a i / Real.sqrt (a 0 ^ 2 + a 1 ^ 2 + a 2 ^ 2)

/-- The 3x3 matrix `R` computed inside `ActorBase.rotate` (base.py) from the
half-angle quantities `a = cos(anglerad/2)`,
`(b, c, d) = -axis * sin(anglerad/2)` — here for an already-normalized
`axis` (the source applies `utils.versor` first; a degree angle is converted
by `np.deg2rad` before this point). -/
noncomputable def rotateMatrix (anglerad : ℝ) (axis : Fin 3 → ℝ) :
    Matrix (Fin 3) (Fin 3) ℝ :=
  let a := Real.cos (anglerad / 2)
  let b := -(axis 0) * Real.sin (anglerad / 2)
  let c := -(axis 1) * Real.sin (anglerad / 2)
  let d := -(axis 2) * Real.sin (anglerad / 2)
  Matrix.of
    ![![a * a + b * b - c * c - d * d, 2 * (b * c + a * d), 2 * (b * d - a * c)],
      ![2 * (b * c - a * d), a * a + c * c - b * b - d * d, 2 * (c * d + a * b)],
      ![2 * (b * d + a * c), 2 * (c * d - a * b), a * a + d * d - b * b - c * c]]

/-- The position `rv = R @ (pos - axis_point) + axis_point` that
`ActorBase.rotate` subsequently installs with `SetPosition`. -/
noncomputable def rotatePosition (anglerad : ℝ) (axis axis_point pos : Fin 3 → ℝ) :
    Fin 3 → ℝ :=
  fun i =>
    (∑ j, rotateMatrix anglerad (versor axis) i j * (pos j - axis_point j))
      + axis_point i

/-- The textbook axis-angle (Rodrigues) rotation matrix
`cos θ · I + sin θ · [n]× + (1 - cos θ) · n nᵀ` for a unit axis `n`,
written entrywise. -/
noncomputable def rodrigues (θ : ℝ) (n : Fin 3 → ℝ) :
    Matrix (Fin 3) (Fin 3) ℝ :=
  let c := Real.cos θ
  let s := Real.sin θ
  Matrix.of
    ![![c + n 0 ^ 2 * (1 - c), n 0 * n 1 * (1 - c) - n 2 * s,
        n 0 * n 2 * (1 - c) + n 1 * s],
      ![n 1 * n 0 * (1 - c) + n 2 * s, c + n 1 ^ 2 * (1 - c),
        n 1 * n 2 * (1 - c) - n 0 * s],
      ![n 2 * n 0 * (1 - c) - n 1 * s, n 2 * n 1 * (1 - c) + n 0 * s,
        c + n 2 ^ 2 * (1 - c)]]

end ActorBase

namespace ActorBase

/-- A nonzero axis normalizes to a unit vector. -/
theorem versor_sq_sum (a : Fin 3 → ℝ) (h : a ≠ 0) :
    versor a 0 ^ 2 + versor a 1 ^ 2 + versor a 2 ^ 2 = 1 := by
  have hS : 0 < a 0 ^ 2 + a 1 ^ 2 + a 2 ^ 2 := by
    rcases lt_or_eq_of_le
        (by positivity : (0 : ℝ) ≤ a 0 ^ 2 + a 1 ^ 2 + a 2 ^ 2) with hlt | heq
    · exact hlt
    · exfalso
      apply h
      have z0 : a 0 = 0 := sq_eq_zero_iff.mp (le_antisymm
        (by nlinarith [sq_nonneg (a 1), sq_nonneg (a 2)]) (sq_nonneg (a 0)))
      have z1 : a 1 = 0 := sq_eq_zero_iff.mp (le_antisymm
        (by nlinarith [sq_nonneg (a 0), sq_nonneg (a 2)]) (sq_nonneg (a 1)))
      have z2 : a 2 = 0 := sq_eq_zero_iff.mp (le_antisymm
        (by nlinarith [sq_nonneg (a 0), sq_nonneg (a 1)]) (sq_nonneg (a 2)))
      funext i
      fin_cases i <;> simp [z0, z1, z2]
  have hs : Real.sqrt (a 0 ^ 2 + a 1 ^ 2 + a 2 ^ 2) ≠ 0 :=
    ne_of_gt (Real.sqrt_pos.mpr hS)
  unfold versor
  field_simp

/-- The matrix assembled by `rotate` from half-angle quantities equals the
textbook Rodrigues matrix whenever the axis is a unit vector. -/
theorem rotateMatrix_eq_rodrigues_of_unit (θ : ℝ) (n : Fin 3 → ℝ)
    (h2 : n 0 ^ 2 + n 1 ^ 2 + n 2 ^ 2 = 1) :
    rotateMatrix θ n = rodrigues θ n := by
  have h1 : Real.sin (θ / 2) ^ 2 + Real.cos (θ / 2) ^ 2 = 1 :=
    Real.sin_sq_add_cos_sq _
  have hc : Real.cos θ = Real.cos (θ / 2) ^ 2 - Real.sin (θ / 2) ^ 2 := by
    conv_lhs => rw [show θ = 2 * (θ / 2) by ring]
    rw [Real.cos_two_mul']
  have hs : Real.sin θ = 2 * Real.sin (θ / 2) * Real.cos (θ / 2) := by
    conv_lhs => rw [show θ = 2 * (θ / 2) by ring]
    rw [Real.sin_two_mul]
  ext i j
  fin_cases i <;> fin_cases j <;>
    simp [rotateMatrix, rodrigues] <;> simp only [hc, hs]
  · linear_combination (n 0 ^ 2) * h1 - Real.sin (θ / 2) ^ 2 * h2
  · linear_combination (n 0 * n 1) * h1
  · linear_combination (n 0 * n 2) * h1
  · linear_combination (n 0 * n 1) * h1
  · linear_combination (n 1 ^ 2) * h1 - Real.sin (θ / 2) ^ 2 * h2
  · linear_combination (n 1 * n 2) * h1
  · linear_combination (n 0 * n 2) * h1
  · linear_combination (n 1 * n 2) * h1
  · linear_combination (n 2 ^ 2) * h1 - Real.sin (θ / 2) ^ 2 * h2

end ActorBase

/-! Execution lemmas for the `Py` monad: running a computation from an
arbitrary console log, used to reason symbolically about the wrapper
methods. -/

/-- Run a `Py` computation from a given console log. -/
def runP {α : Type} (x : Py α) (log : List String) :
    Except PyError α × List String :=
  (ExceptT.run x).run log

@[simp] theorem pyRun_eq {α : Type} (x : Py α) : pyRun x = runP x [] := rfl

@[simp] theorem runP_pure {α : Type} (a : α) (log : List String) :
    runP (pure a) log = (.ok a, log) := rfl

@[simp] theorem runP_throw {α : Type} (e : PyError) (log : List String) :
    runP (throw e : Py α) log = (.error e, log) := rfl

@[simp] theorem runP_printc (m : String) (log : List String) :
    runP (printc m) log = (.ok PUnit.unit, log ++ [m]) := rfl

@[simp] theorem runP_bind {α β : Type} (x : Py α) (f : α → Py β)
    (log : List String) :
    runP (x >>= f) log =
      match runP x log with
      | (.ok a, log') => runP (f a) log'
      | (.error e, log') => (.error e, log') := by
  simp only [runP, ExceptT.run, ExceptT.bind, ExceptT.bindCont, ExceptT.mk,
    StateT.run, StateT.bind, bind, Id.run]
  rcases h : x log with ⟨a | e, log'⟩ <;>
    simp [h, ExceptT.run, StateT.run, pure, StateT.pure]

@[simp] theorem runP_map {α β : Type} (g : α → β) (x : Py α)
    (log : List String) :
    runP (g <$> x) log =
      match runP x log with
      | (.ok a, log') => (.ok (g a), log')
      | (.error e, log') => (.error e, log') := by
  simp only [runP, ExceptT.run, ExceptT.map, ExceptT.mk, StateT.run,
    StateT.map, Functor.map, Id.run]
  rcases h : x log with ⟨a | e, log'⟩ <;>
    simp [h, bind, StateT.bind, pure, StateT.pure, Id.run]

/-- The computation `Py` returns a result (no exception was raised). -/
def pyOk {α : Type} (x : Py α) : Bool :=
  match (pyRun x).1 with
  | .ok _ => true
  | .error _ => false

deriving instance DecidableEq for Except

/-- A nonempty-sequence length of at least 2 gives a nonzero Python
denominator `len - 1`. -/
theorem den_ne_zero {n : ℕ} (h : 2 ≤ n) : ((n : ℚ) - 1) ≠ 0 := by
  have : (2 : ℚ) ≤ (n : ℚ) := by exact_mod_cast h
  intro hq
  nlinarith

/-- The control-point loop shared by `alpha`, `alphaGradient` and `color`:
with a nonzero denominator the division never raises, and the points are the
interpolated positions paired with the supplied values. -/
theorem mapM_div_points (smin smax den : ℚ) (hden : den ≠ 0)
    (L : List (ℕ × ℚ)) :
    (L.mapM (fun p => do
      let q ← pydiv ((smax - smin) * (p.1 : ℚ)) den
      pure (smin + q, p.2)) : Py (List (ℚ × ℚ))) =
    pure (L.map (fun p => (smin + (smax - smin) * (p.1 : ℚ) / den, p.2))) := by
  induction L with
  | nil => rfl
  | cons a L ih =>
      rw [List.mapM_cons, ih]
      simp [pydiv, hden]

/-! Concrete fixtures used by witnesses and counterexamples. -/

/-- A small concrete image: 4x5x6 voxels, unit spacing, scalar range
[10, 20]. -/
def testImage : ImageData :=
  { dims := (4, 5, 6), spacing := (1, 1, 1), origin := (0, 0, 0),
    scalarRange := (10, 20), nPoints := 120, nCells := 60,
    pointArrays := [("vals", [1, 2, 3])], cellArrays := [],
    pointVectors := [], cellVectors := [],
    activePointScalars := none, activeCellScalars := none,
    activePointVectors := none, activeCellVectors := none }

/-- A GPU-style mapper (exposes `SetUseJittering`) holding `testImage`. -/
def testMapper : VolumeMapper :=
  { inputData := some testImage, blendMode := 0, hasUseJittering := true,
    useJittering := false, hasScalarVisibility := false, arrayName := "",
    scalarMode := 0, scalarVisibility := false, scalarRangeSetting := none }

/-- A volume property with the VTK default lighting constants. -/
def testProp : VolumeProperty :=
  { colorTF := [], scalarOpacity := [], gradientOpacity := [],
    disableGradientOpacity := false, interpolationLinear := false,
    shade := false, ambient := 1/10, diffuse := 7/10, specular := 2/10,
    specularPower := 10, specularColor := (1, 1, 1), hasGetColor := true,
    color := (1, 1, 1), lightingOn := true }

/-- A concrete `Volume` state over `testImage`. -/
def testVolume : VolumeState :=
  { imagedata := testImage, mapper := testMapper, prop := testProp,
    position := (0, 0, 0), pickableFlag := true, timeVal := 0,
    legendVal := none, modeCache := 0, colorCache := none,
    alphaCache := none, alphaGradCache := none }

/-- The same volume rendered through a mapper without `SetUseJittering`
(e.g. the projected-tetrahedra mapper picked for unstructured grids). -/
def testVolumeTetra : VolumeState :=
  { testVolume with mapper := { testMapper with hasUseJittering := false } }

/-- A concrete stand-in for the color utilities. -/
def testColors : ColorsModule :=
  { getColor := fun _ => (1, 0, 0), getColorInt := fun _ => (0, 1, 0),
    isKnownName := fun s => s = "red", hasMapscales := true,
    colorMap := fun _ _ _ _ => (0, 0, 1) }

/-! Characterizations of the transfer-function methods. -/

/-- The state produced by `alpha` on a sequence: control points
interpolated over the scalar range. -/
def alphaSeqState (v : VolumeState) (l : List ℚ) : VolumeState :=
  { v with
    alphaCache := some (AlphaArg.seq l)
    prop := { v.prop with
              scalarOpacity := l.enum.map (fun p =>
                (v.imagedata.scalarRange.1 +
                  (v.imagedata.scalarRange.2 - v.imagedata.scalarRange.1)
                    * (p.1 : ℚ) / ((l.length : ℚ) - 1), p.2))
              interpolationLinear := true } }

/-- `alpha` on a sequence with at least two entries: no exception, and the
control points are the interpolated positions over the scalar range. -/
theorem runP_alpha_seq (v : VolumeState) (l : List ℚ)
    (hn : ((l.length : ℚ) - 1) ≠ 0) (log : List String) :
    runP (Volume.alpha v (.seq l)) log =
      (Except.ok (alphaSeqState v l, PyRet.self), log) := by
  simp only [Volume.alpha]
  rw [mapM_div_points _ _ _ hn]
  simp [alphaSeqState]

/-- The state produced by `alpha` on a single scalar: a constant opacity
over the whole scalar range. -/
def alphaScalarState (v : VolumeState) (a : ℚ) : VolumeState :=
  { v with
    alphaCache := some (AlphaArg.scalar a)
    prop := { v.prop with
              scalarOpacity := [(v.imagedata.scalarRange.1, a),
                (v.imagedata.scalarRange.2, a)]
              interpolationLinear := true } }

/-- `alpha` on a single scalar: two control points at the ends of the
scalar range. -/
theorem runP_alpha_scalar (v : VolumeState) (a : ℚ) (log : List String) :
    runP (Volume.alpha v (.scalar a)) log =
      (Except.ok (alphaScalarState v a, PyRet.self), log) := by
  simp [Volume.alpha, alphaScalarState]

/-- The state produced by `alphaGradient` on a sequence: control points
interpolated over the fixed range 0..255. -/
def alphaGradSeqState (v : VolumeState) (l : List ℚ) : VolumeState :=
  { v with
    alphaGradCache := some (some (AlphaArg.seq l))
    prop := { v.prop with
              disableGradientOpacity := false
              gradientOpacity := l.enum.map (fun p =>
                ((0 : ℚ) + ((255 : ℚ) - 0) * (p.1 : ℚ)
                  / ((l.length : ℚ) - 1), p.2))
              interpolationLinear := true } }

/-- `alphaGradient` on a sequence with at least two entries: no exception,
and the control points are interpolated over the fixed range 0..255 (not
over the volume's scalar range). -/
theorem runP_alphaGradient_seq (v : VolumeState) (l : List ℚ)
    (hn : ((l.length : ℚ) - 1) ≠ 0) (log : List String) :
    runP (Volume.alphaGradient v (some (.seq l))) log =
      (Except.ok (alphaGradSeqState v l, PyRet.self), log) := by
  simp only [Volume.alphaGradient]
  rw [mapM_div_points _ _ _ hn]
  simp [alphaGradSeqState]

/-- The state produced by `color` on an argument of unknown type: the
transfer function is left empty. -/
def colorOtherState (v : VolumeState) : VolumeState :=
  { v with
    colorCache := some ColorArg.other
    prop := { v.prop with
              colorTF := []
              interpolationLinear := true } }

/-- `color` on an argument of unknown type: prints one message, raises
nothing, and installs an empty color transfer function. -/
theorem runP_color_other (cm : ColorsModule) (v : VolumeState)
    (log : List String) :
    runP (Volume.color cm v .other) log =
      (Except.ok (colorOtherState v, PyRet.self),
        log ++ ["volume.color(): unknown input type:"]) := by
  simp [Volume.color, colorOtherState]

/-! Claim theorems. -/

/-- C7: for every `Volume` and 3-element spacing `s`, calling `spacing(s)`
and then `spacing()` with no argument returns exactly `s` (set-then-get
round trip on voxel spacing). -/
theorem C7_spacing_roundtrip (v : VolumeState) (s : Triple) :
    (Volume.spacing (Volume.spacing v (some s)).1 none).2 = PyRet.triple s := by
  simp [Volume.spacing, VolumeState.mutateImagedata]

/-- C10: for a volume of dimensions `(nx, ny, nz)`, slice extraction clamps
an over-large index to the last slice — `xSlice i` for `nx ≤ i` configures
the same filter as `xSlice (nx-1)`, likewise for `ySlice`/`zSlice` — while a
negative index is passed through unclamped into the extent. -/
theorem C10_slice_index_clamping (v : VolumeState) (i : ℤ) :
    (((v.imagedata.dims.1 : ℤ) ≤ i →
        Volume.xSlice v i = Volume.xSlice v ((v.imagedata.dims.1 : ℤ) - 1)) ∧
      (i < 0 → Volume.xSlice v i =
        (v.imagedata, (i, i, 0, (v.imagedata.dims.2.1 : ℤ), 0,
          (v.imagedata.dims.2.2 : ℤ))))) ∧
    (((v.imagedata.dims.2.1 : ℤ) ≤ i →
        Volume.ySlice v i = Volume.ySlice v ((v.imagedata.dims.2.1 : ℤ) - 1)) ∧
      (i < 0 → Volume.ySlice v i =
        (v.imagedata, (0, (v.imagedata.dims.1 : ℤ), i, i, 0,
          (v.imagedata.dims.2.2 : ℤ))))) ∧
    (((v.imagedata.dims.2.2 : ℤ) ≤ i →
        Volume.zSlice v i = Volume.zSlice v ((v.imagedata.dims.2.2 : ℤ) - 1)) ∧
      (i < 0 → Volume.zSlice v i =
        (v.imagedata, (0, (v.imagedata.dims.1 : ℤ), 0,
          (v.imagedata.dims.2.1 : ℤ), i, i)))) := by
  refine ⟨⟨fun hx => ?_, fun hx => ?_⟩, ⟨fun hy => ?_, fun hy => ?_⟩,
    ⟨fun hz => ?_, fun hz => ?_⟩⟩ <;>
    simp only [Volume.xSlice, Volume.ySlice, Volume.zSlice]
  · rw [if_pos (by omega), if_neg (by omega)]
  · rw [if_neg (by omega)]
  · rw [if_pos (by omega), if_neg (by omega)]
  · rw [if_neg (by omega)]
  · rw [if_pos (by omega), if_neg (by omega)]
  · rw [if_neg (by omega)]

/-- Witness for C10 at concrete inputs: the 4x5x6 test volume with
over-large index 7 and negative index -2. -/
theorem C10_slice_index_clamping_witness :
    (Volume.xSlice testVolume 7 = Volume.xSlice testVolume 3 ∧
      Volume.xSlice testVolume (-2) =
        (testVolume.imagedata, (-2, -2, 0, 5, 0, 6))) ∧
    (Volume.ySlice testVolume 7 = Volume.ySlice testVolume 4 ∧
      Volume.zSlice testVolume 7 = Volume.zSlice testVolume 5) :=
  ⟨⟨(C10_slice_index_clamping testVolume 7).1.1 (by decide),
    (C10_slice_index_clamping testVolume (-2)).1.2 (by decide)⟩,
    (C10_slice_index_clamping testVolume 7).2.1.1 (by decide),
    (C10_slice_index_clamping testVolume 7).2.2.1 (by decide)⟩

/-- C4: for a volume with scalar range `[smin, smax]` and a sequence of at
least 2 opacities, `alpha` places the i-th control point at
`smin + (smax - smin) * i / (n - 1)` with opacity `alpha[i]`; for a single
scalar it adds exactly the two points `(smin, a)` and `(smax, a)`. -/
theorem C4_alpha_control_points (v : VolumeState) (l : List ℚ)
    (h : 2 ≤ l.length) (i : ℕ) (hi : i < l.length) (a : ℚ) :
    ((pyRun (Volume.alpha v (.seq l))).1.map
        (fun p => p.1.prop.scalarOpacity[i]?) =
      Except.ok (some (v.imagedata.scalarRange.1 +
        (v.imagedata.scalarRange.2 - v.imagedata.scalarRange.1) * (i : ℚ)
          / ((l.length : ℚ) - 1), l[i]))) ∧
    ((pyRun (Volume.alpha v (.scalar a))).1.map
        (fun p => p.1.prop.scalarOpacity) =
      Except.ok [(v.imagedata.scalarRange.1, a),
        (v.imagedata.scalarRange.2, a)]) := by
  constructor
  · rw [pyRun_eq, runP_alpha_seq v l (den_ne_zero h)]
    simp [alphaSeqState, Except.map, List.getElem?_map, List.getElem?_enum,
      List.getElem?_eq_getElem hi]
  · rw [pyRun_eq, runP_alpha_scalar]
    simp [alphaScalarState, Except.map]

/-- Witness for C4: the test volume (scalar range [10, 20]) with the opacity
sequence [0, 1/2, 1] — the middle control point sits at 15 — and the
constant opacity 3/4. -/
theorem C4_alpha_control_points_witness :
    ((pyRun (Volume.alpha testVolume (.seq [0, 1/2, 1]))).1.map
        (fun p => p.1.prop.scalarOpacity[1]?) =
      Except.ok (some (testVolume.imagedata.scalarRange.1 +
        (testVolume.imagedata.scalarRange.2 -
          testVolume.imagedata.scalarRange.1) * (1 : ℚ)
          / (((3 : ℕ) : ℚ) - 1), (1 : ℚ)/2))) ∧
    ((pyRun (Volume.alpha testVolume (.scalar (3/4)))).1.map
        (fun p => p.1.prop.scalarOpacity) =
      Except.ok [(testVolume.imagedata.scalarRange.1, 3/4),
        (testVolume.imagedata.scalarRange.2, 3/4)]) :=
  C4_alpha_control_points testVolume [0, 1/2, 1] (by decide) 1 (by decide)
    (3/4)

/-- C3 as stated is false: `alphaGradient` ignores the volume's scalar range
and interpolates over the hard-coded range 0..255.  On the test volume
(scalar range [10, 20]) with gradient opacities [0, 1] the control points
land at 0 and 255, not at 10 and 20. -/
theorem C3_alphaGradient_counterexample :
    testVolume.imagedata.scalarRange = (10, 20) ∧
    (pyRun (Volume.alphaGradient testVolume (some (.seq [0, 1])))).1.map
        (fun p => p.1.prop.gradientOpacity) =
      Except.ok [((0 : ℚ), (0 : ℚ)), (255, 1)] ∧
    [((0 : ℚ), (0 : ℚ)), (255, 1)] ≠ [((10 : ℚ), (0 : ℚ)), (20, 1)] := by
  refine ⟨rfl, ?_, by decide⟩
  rw [pyRun_eq, runP_alphaGradient_seq testVolume [0, 1] (by norm_num)]
  simp [alphaGradSeqState, Except.map, List.enum, List.enumFrom]
  norm_num

/-- C3 amended: for every volume and sequence of `n ≥ 2` gradient
opacities, `alphaGradient` builds a transfer function whose i-th control
point lies at `0 + (255 - 0) * i / (n - 1)` with value `alphaGrad[i]` — the
control points are interpolated over the fixed byte range 0..255 regardless
of the volume's scalar range. -/
theorem C3_alphaGradient_fixed_range (v : VolumeState) (l : List ℚ)
    (h : 2 ≤ l.length) (i : ℕ) (hi : i < l.length) :
    (pyRun (Volume.alphaGradient v (some (.seq l)))).1.map
        (fun p => p.1.prop.gradientOpacity[i]?) =
      Except.ok (some ((0 : ℚ) + ((255 : ℚ) - 0) * (i : ℚ)
        / ((l.length : ℚ) - 1), l[i])) := by
  rw [pyRun_eq, runP_alphaGradient_seq v l (den_ne_zero h)]
  simp [alphaGradSeqState, Except.map, List.getElem?_map, List.getElem?_enum,
    List.getElem?_eq_getElem hi]

/-- Witness for the amended C3: the test volume with gradient opacities
[0, 1/2, 1]; the middle point sits at 127.5. -/
theorem C3_alphaGradient_fixed_range_witness :
    (pyRun (Volume.alphaGradient testVolume (some (.seq [0, 1/2, 1])))).1.map
        (fun p => p.1.prop.gradientOpacity[1]?) =
      Except.ok (some ((0 : ℚ) + ((255 : ℚ) - 0) * (1 : ℚ)
        / (((3 : ℕ) : ℚ) - 1), (1 : ℚ)/2)) :=
  C3_alphaGradient_fixed_range testVolume [0, 1/2, 1] (by decide) 1
    (by decide)

/-- The color-sequence control-point loop of `Volume.color` with a nonzero
denominator: no exception, colors resolved and positions interpolated. -/
theorem mapM_div_points_color (cm : ColorsModule) (smin smax den : ℚ)
    (hden : den ≠ 0) (L : List (ℕ × String)) :
    (L.mapM (fun p => do
      let rgb := cm.getColor p.2
      let q ← pydiv ((smax - smin) * (p.1 : ℚ)) den
      pure (smin + q, rgb)) : Py (List (ℚ × RGB))) =
    pure (L.map (fun p =>
      (smin + (smax - smin) * (p.1 : ℚ) / den, cm.getColor p.2))) := by
  induction L with
  | nil => rfl
  | cons a L ih =>
      rw [List.mapM_cons, ih]
      simp [pydiv, hden]

/-- The state produced by `color` on a sequence of color specs. -/
def colorSeqState (cm : ColorsModule) (v : VolumeState) (ls : List String) :
    VolumeState :=
  { v with
    colorCache := some (ColorArg.seq ls)
    prop := { v.prop with
              colorTF := ls.enum.map (fun p =>
                (v.imagedata.scalarRange.1 +
                  (v.imagedata.scalarRange.2 - v.imagedata.scalarRange.1)
                    * (p.1 : ℚ) / ((ls.length : ℚ) - 1), cm.getColor p.2))
              interpolationLinear := true } }

/-- `color` on a sequence with at least two entries: no exception, and the
control points are spread over the scalar range. -/
theorem runP_color_seq (cm : ColorsModule) (v : VolumeState)
    (ls : List String) (hn : ((ls.length : ℚ) - 1) ≠ 0) (log : List String) :
    runP (Volume.color cm v (.seq ls)) log =
      (Except.ok (colorSeqState cm v ls, PyRet.self), log) := by
  simp only [Volume.color]
  rw [mapM_div_points_color cm _ _ _ hn]
  simp [colorSeqState]

/-- A `mapM` whose first element raises propagates the exception. -/
theorem runP_mapM_cons_throw {α β : Type} (f : α → Py β) (a : α)
    (L : List α) (e : PyError) (hf : ∀ log, runP (f a) log = (.error e, log))
    (log : List String) :
    runP ((a :: L).mapM f) log = (.error e, log) := by
  rw [List.mapM_cons]
  simp [hf]

/-- C9: on a sequence argument of length exactly 1, `alpha`, `color` and
`alphaGradient` hit an unguarded division by `len - 1 = 0` and raise
`ZeroDivisionError`; a sequence of at least 2 elements is a precondition
for the sequence branch (no exception is raised then). -/
theorem C9_singleton_sequence_division_by_zero (cm : ColorsModule)
    (v : VolumeState) (l : List ℚ) (ls : List String) (h1 : l.length = 1)
    (h1s : ls.length = 1) (m : List ℚ) (ms : List String)
    (h2 : 2 ≤ m.length) (h2s : 2 ≤ ms.length) :
    ((pyRun (Volume.alpha v (.seq l))).1 =
        Except.error PyError.zeroDivisionError ∧
      (pyRun (Volume.color cm v (.seq ls))).1 =
        Except.error PyError.zeroDivisionError ∧
      (pyRun (Volume.alphaGradient v (some (.seq l)))).1 =
        Except.error PyError.zeroDivisionError) ∧
    (pyOk (Volume.alpha v (.seq m)) = true ∧
      pyOk (Volume.color cm v (.seq ms)) = true ∧
      pyOk (Volume.alphaGradient v (some (.seq m))) = true) := by
  obtain ⟨x, rfl⟩ := List.length_eq_one.mp h1
  obtain ⟨y, rfl⟩ := List.length_eq_one.mp h1s
  have hd : (([x].length : ℚ) - 1) = 0 := by norm_num
  have hds : (([y].length : ℚ) - 1) = 0 := by norm_num
  have he : [x].enum = [(0, x)] := rfl
  have hes : [y].enum = [(0, y)] := rfl
  refine ⟨⟨?_, ?_, ?_⟩, ?_, ?_, ?_⟩
  · simp [Volume.alpha, he, hd, pydiv, List.mapM_cons, List.mapM.loop]
  · simp [Volume.color, hes, hds, pydiv, List.mapM_cons, List.mapM.loop]
  · simp [Volume.alphaGradient, he, hd, pydiv, List.mapM_cons,
      List.mapM.loop]
  · simp [pyOk, runP_alpha_seq v m (den_ne_zero h2)]
  · simp [pyOk, runP_color_seq cm v ms (den_ne_zero h2s)]
  · simp [pyOk, runP_alphaGradient_seq v m (den_ne_zero h2)]

/-- Witness for C9: the singleton opacity [1/2] / color ["red"] raise, the
pair [0, 1] / ["red", "blue"] do not. -/
theorem C9_singleton_sequence_division_by_zero_witness :
    ((pyRun (Volume.alpha testVolume (.seq [1/2]))).1 =
        Except.error PyError.zeroDivisionError ∧
      (pyRun (Volume.color testColors testVolume (.seq ["red"]))).1 =
        Except.error PyError.zeroDivisionError ∧
      (pyRun (Volume.alphaGradient testVolume (some (.seq [1/2])))).1 =
        Except.error PyError.zeroDivisionError) ∧
    (pyOk (Volume.alpha testVolume (.seq [0, 1])) = true ∧
      pyOk (Volume.color testColors testVolume (.seq ["red", "blue"])) = true ∧
      pyOk (Volume.alphaGradient testVolume (some (.seq [0, 1]))) = true) :=
  C9_singleton_sequence_division_by_zero testColors testVolume [1/2] ["red"]
    (by decide) (by decide) [0, 1] ["red", "blue"] (by decide) (by decide)

/-- C1: on a volume with spacing (1,1,1) and newSpacing (2,2,2) — for any
behaviour `sem` of the wrapped resampling algorithm — the filter configured
by `resample` still has no input connection after the method runs (the
source never calls `SetInputData` on it); in particular its input is not the
volume's image data, and the volume's data is replaced by the default empty
output of the unconnected filter rather than by resampled content. -/
theorem C1_resample_filter_never_gets_input
    (sem : ImageData → ImageResample → ImageData) :
    (Volume.resample sem testVolume (2, 2, 2) 1).2.input = none ∧
    (Volume.resample sem testVolume (2, 2, 2) 1).2.input ≠
      some testVolume.imagedata ∧
    (Volume.resample sem testVolume (2, 2, 2) 1).1.imagedata =
      ImageData.empty := by
  have h1 : (Volume.resample sem testVolume (2, 2, 2) 1).2.input = none := by
    norm_num [Volume.resample, ImageResample.init, ImageResample.getOutput,
      Volume._update, testVolume, testImage]
  refine ⟨h1, by rw [h1]; simp, ?_⟩
  norm_num [Volume.resample, ImageResample.init, ImageResample.getOutput,
    Volume._update, testVolume, testImage]

/-- C6 as stated is false: `jittering(True)` — a setter-form call — returns
Python `None`, not the volume, when the mapper does not expose
`SetUseJittering` (as for the projected-tetrahedra mapper the constructor
picks for unstructured grids). -/
theorem C6_jittering_counterexample :
    (Volume.jittering testVolumeTetra (some true)).2 = PyRet.noneVal ∧
    PyRet.noneVal ≠ PyRet.self := by
  exact ⟨rfl, by decide⟩

/-- The method, whenever it returns normally, returns `self`. -/
def RetSelf (x : Py (VolumeState × PyRet)) : Prop :=
  ∀ log r log', runP x log = (.ok r, log') → r.2 = PyRet.self

theorem retSelf_pure (st : VolumeState) : RetSelf (pure (st, PyRet.self)) := by
  intro log r log' h
  simp only [runP_pure] at h
  cases h
  rfl

theorem retSelf_bind {α : Type} (x : Py α)
    (f : α → Py (VolumeState × PyRet)) (hf : ∀ a, RetSelf (f a)) :
    RetSelf (x >>= f) := by
  intro log r log' h
  rw [runP_bind] at h
  split at h
  · exact hf _ _ _ _ h
  · cases h

/-- C6 amended: every listed setter-form method returns the object it was
called on — `pos`, `time`, `spacing`, `mode`, `alpha`, `color`, `pickable`,
`legend` (with a truthy text), and `jittering` when the mapper supports it —
except that `jittering` returns `None` when the mapper has no
`SetUseJittering` method. -/
theorem C6_setters_return_self (cm : ColorsModule) (v : VolumeState)
    (t : ℚ) (p : PosArg) (hp : p ≠ PosArg.noArgs) (s : Triple) (m : ℤ)
    (a : AlphaArg) (c : ColorArg) (b : Bool)
    (hj : v.mapper.hasUseJittering = true) (txt : String) (ht : txt ≠ "") :
    (ActorBase.time v (some t)).2 = PyRet.self ∧
    (ActorBase.pos v p).2 = PyRet.self ∧
    (Volume.spacing v (some s)).2 = PyRet.self ∧
    RetSelf (Volume.mode cm v (some m)) ∧
    RetSelf (Volume.alpha v a) ∧
    RetSelf (Volume.color cm v c) ∧
    (Volume.jittering v (some b)).2 = PyRet.self ∧
    (ActorBase.pickable v (some b)).2 = PyRet.self ∧
    (ActorBase.legend v (some txt)).2 = PyRet.self := by
  refine ⟨rfl, ?_, rfl, ?_, ?_, ?_, ?_, rfl, ?_⟩
  · cases p with
    | noArgs => exact absurd rfl hp
    | vec t => rfl
    | xy x y => rfl
    | xyz x y z => rfl
  · simp only [Volume.mode]
    split_ifs with h0 h1 <;>
      first
        | exact retSelf_bind _ _ (fun r => retSelf_pure _)
        | exact retSelf_pure _
  · cases a with
    | seq l =>
        simp only [Volume.alpha]
        exact retSelf_bind _ _ (fun otf => retSelf_pure _)
    | scalar x =>
        simp only [Volume.alpha]
        exact retSelf_bind _ _ (fun otf => retSelf_pure _)
  · cases c with
    | seq l =>
        simp only [Volume.color]
        exact retSelf_bind _ _ (fun ctf => retSelf_pure _)
    | str s =>
        simp only [Volume.color]
        split_ifs <;> exact retSelf_bind _ _ (fun ctf => retSelf_pure _)
    | int n =>
        simp only [Volume.color]
        exact retSelf_bind _ _ (fun ctf => retSelf_pure _)
    | other =>
        simp only [Volume.color]
        exact retSelf_bind _ _ (fun ctf => retSelf_pure _)
  · simp only [Volume.jittering, hj, if_true]
  · simp [ActorBase.legend, ht]

/-- Witness for the amended C6 at concrete setter calls on the test
volume. -/
theorem C6_setters_return_self_witness :
    (ActorBase.time testVolume (some 1)).2 = PyRet.self ∧
    (ActorBase.pos testVolume (PosArg.xyz 1 2 3)).2 = PyRet.self ∧
    (Volume.spacing testVolume (some (2, 2, 2))).2 = PyRet.self ∧
    (alphaScalarState testVolume (1/2), PyRet.self).2 = PyRet.self ∧
    (Volume.jittering testVolume (some true)).2 = PyRet.self ∧
    (ActorBase.pickable testVolume (some false)).2 = PyRet.self ∧
    (ActorBase.legend testVolume (some "leg")).2 = PyRet.self := by
  have h := C6_setters_return_self testColors testVolume 1
    (PosArg.xyz 1 2 3) (by decide) (2, 2, 2) 0 (AlphaArg.scalar (1/2))
    ColorArg.other true rfl "leg" (by decide)
  exact ⟨h.1, h.2.1, h.2.2.1,
    h.2.2.2.2.1 [] (alphaScalarState testVolume (1/2), PyRet.self) []
      (runP_alpha_scalar testVolume (1/2) []),
    h.2.2.2.2.2.2.1, h.2.2.2.2.2.2.2.1, h.2.2.2.2.2.2.2.2⟩

/-- C5: for every angle, nonzero (unit or non-unit) axis and pivot
`axis_point`, the matrix `R` computed inside `rotate` equals the standard
axis-angle (Rodrigues) rotation matrix for the normalized axis, and the
position the method installs equals `R @ (old position - axis_point) +
axis_point`. -/
theorem C5_rotate_is_rodrigues (anglerad : ℝ)
    (axis axis_point pos : Fin 3 → ℝ) (h : axis ≠ 0) :
    ActorBase.rotateMatrix anglerad (ActorBase.versor axis) =
      ActorBase.rodrigues anglerad (ActorBase.versor axis) ∧
    ActorBase.rotatePosition anglerad axis axis_point pos = fun i =>
      (ActorBase.rodrigues anglerad (ActorBase.versor axis)).mulVec
        (fun j => pos j - axis_point j) i + axis_point i := by
  have hm := ActorBase.rotateMatrix_eq_rodrigues_of_unit anglerad _
    (ActorBase.versor_sq_sum axis h)
  refine ⟨hm, ?_⟩
  funext i
  simp [ActorBase.rotatePosition, Matrix.mulVec, Matrix.dotProduct, hm,
    Fin.sum_univ_three]

/-- Witness for C5 at angle 1 rad, axis (1,0,0), pivot (4,5,6), position
(7,8,9). -/
theorem C5_rotate_is_rodrigues_witness :
    ActorBase.rotateMatrix 1 (ActorBase.versor ![1, 0, 0]) =
      ActorBase.rodrigues 1 (ActorBase.versor ![1, 0, 0]) ∧
    ActorBase.rotatePosition 1 ![1, 0, 0] ![4, 5, 6] ![7, 8, 9] = fun i =>
      (ActorBase.rodrigues 1 (ActorBase.versor ![1, 0, 0])).mulVec
        (fun j => ![(7 : ℝ), 8, 9] j - ![(4 : ℝ), 5, 6] j) i +
        ![(4 : ℝ), 5, 6] i :=
  C5_rotate_is_rodrigues 1 ![1, 0, 0] ![4, 5, 6] ![7, 8, 9] (by
    intro hz
    have h0 := congrFun hz 0
    simp at h0)

/-- C2 as stated is false for `Volume.color`: on an unrecognized color
argument the method prints its message but raises no exception — it returns
the volume with an empty color transfer function installed. -/
theorem C2_color_unknown_type_counterexample :
    (pyRun (Volume.color testColors testVolume ColorArg.other)).1 =
      Except.ok (colorOtherState testVolume, PyRet.self) ∧
    (pyRun (Volume.color testColors testVolume ColorArg.other)).2 =
      ["volume.color(): unknown input type:"] := by
  rw [pyRun_eq, runP_color_other]
  exact ⟨rfl, rfl⟩

/-- C2 amended: a scalars/vectors array whose length differs from the input
data's point/cell count in `addPointScalars` / `addCellScalars` /
`addPointVectors` / `addCellVectors`, an unknown non-empty style in
`lighting`, and an unrecognized axis in `mirror` each print a colored
console message and raise a generic `RuntimeError`; a well-formed (nonempty,
length-matching) array raises nothing; `Volume.color` on an unrecognized
argument only prints its message and raises nothing. -/
theorem C2_malformed_input_errors (cm : ColorsModule) :
    (∀ (ars : Bool) (v : VolumeState) (d : ImageData) (scalars : List ℚ)
        (name : String) (log : List String),
      v.mapper.inputData = some d → scalars.length ≠ d.nPoints →
      runP (ActorBase.addPointScalars ars v scalars name) log =
        (.error .runtimeError, log ++
          ["~times addPointScalars(): Number of scalars != nr. of points"])) ∧
    (∀ (ars : Bool) (v : VolumeState) (d : ImageData) (scalars : List ℚ)
        (name : String) (log : List String),
      v.mapper.inputData = some d → scalars.length ≠ d.nCells →
      runP (ActorBase.addCellScalars ars v (.arr scalars) name) log =
        (.error .runtimeError, log ++
          ["addCellScalars() Error: Number of scalars != nr. of cells"])) ∧
    (∀ (v : VolumeState) (d : ImageData) (vectors : List Triple)
        (name : String) (log : List String),
      v.mapper.inputData = some d → vectors.length ≠ d.nPoints →
      runP (ActorBase.addPointVectors v vectors name) log =
        (.error .runtimeError, log ++
          ["addPointVectors Error: Number of vectors != nr. of points"])) ∧
    (∀ (v : VolumeState) (d : ImageData) (vectors : List Triple)
        (name : String) (log : List String),
      v.mapper.inputData = some d → vectors.length ≠ d.nCells →
      runP (ActorBase.addCellVectors v vectors name) log =
        (.error .runtimeError, log ++
          ["addPointVectors Error: Number of vectors != nr. of cells"])) ∧
    (∀ (v : VolumeState) (style : String)
        (am di sp spw : Option ℚ) (sc : Option String) (en : Bool)
        (log : List String),
      style ≠ "" → style ≠ "metallic" → style ≠ "plastic" →
      style ≠ "shiny" → style ≠ "glossy" → style ≠ "ambient" →
      style ≠ "default" →
      runP (ActorBase.lighting cm v style am di sp spw sc en) log =
        (.error .runtimeError, log ++
          ["Error in lighting(): Available styles are",
           " [default, metallic, plastic, shiny, glossy, ambient]"])) ∧
    (∀ (flip : ImageData → ℕ → ImageData) (v : VolumeState) (axis : String)
        (log : List String),
      pyLower axis ≠ "x" → pyLower axis ≠ "y" → pyLower axis ≠ "z" →
      runP (Volume.mirror flip v axis) log =
        (.error .runtimeError, log ++
          ["~times Error in mirror(): mirror must be set to x, y, z or n."])) ∧
    (∀ (ars : Bool) (v : VolumeState) (d : ImageData) (scalars : List ℚ)
        (name : String),
      v.mapper.inputData = some d → scalars.length = d.nPoints →
      scalars ≠ [] →
      pyOk (ActorBase.addPointScalars ars v scalars name) = true) ∧
    (∀ (v : VolumeState) (log : List String),
      runP (Volume.color cm v .other) log =
        (.ok (colorOtherState v, PyRet.self),
          log ++ ["volume.color(): unknown input type:"])) := by
  refine ⟨?_, ?_, ?_, ?_, ?_, ?_, ?_, ?_⟩
  · intro ars v d scalars name log h hlen
    simp [ActorBase.addPointScalars, ActorBase.inputdata, h, hlen]
  · intro ars v d scalars name log h hlen
    simp [ActorBase.addCellScalars, ActorBase.inputdata, h, hlen]
  · intro v d vectors name log h hlen
    simp [ActorBase.addPointVectors, ActorBase.inputdata, h, hlen]
  · intro v d vectors name log h hlen
    simp [ActorBase.addCellVectors, ActorBase.inputdata, h, hlen]
  · intro v style am di sp spw sc en log h0 h1 h2 h3 h4 h5 h6
    simp [ActorBase.lighting, h0, h1, h2, h3, h4, h5, h6]
  · intro flip v axis log h1 h2 h3
    simp [Volume.mirror, h1, h2, h3]
  · intro ars v d scalars name h hlen hne
    cases scalars with
    | nil => exact absurd rfl hne
    | cons x xs =>
        cases ars <;>
          simp [pyOk, ActorBase.addPointScalars, ActorBase.inputdata, h,
            hlen, npMin, npMax]
  · intro v log
    rw [runP_color_other]

/-- Witness for the amended C2 at concrete malformed and well-formed
inputs on the test volume (120 points, 60 cells). -/
theorem C2_malformed_input_errors_witness :
    runP (ActorBase.addPointScalars true testVolume [1, 2, 3] "s") [] =
      (.error .runtimeError,
        ["~times addPointScalars(): Number of scalars != nr. of points"]) ∧
    runP (ActorBase.addCellScalars true testVolume (.arr [1, 2, 3]) "s") [] =
      (.error .runtimeError,
        ["addCellScalars() Error: Number of scalars != nr. of cells"]) ∧
    runP (ActorBase.addPointVectors testVolume
        [((1 : ℚ), (1 : ℚ), (1 : ℚ))] "w") [] =
      (.error .runtimeError,
        ["addPointVectors Error: Number of vectors != nr. of points"]) ∧
    runP (ActorBase.addCellVectors testVolume
        [((1 : ℚ), (1 : ℚ), (1 : ℚ))] "w") [] =
      (.error .runtimeError,
        ["addPointVectors Error: Number of vectors != nr. of cells"]) ∧
    runP (ActorBase.lighting testColors testVolume "funky" none none none
        none none true) [] =
      (.error .runtimeError,
        ["Error in lighting(): Available styles are",
         " [default, metallic, plastic, shiny, glossy, ambient]"]) ∧
    runP (Volume.mirror (fun d _ => d) testVolume "w") [] =
      (.error .runtimeError,
        ["~times Error in mirror(): mirror must be set to x, y, z or n."]) ∧
    pyOk (ActorBase.addPointScalars true testVolume
      (List.replicate 120 0) "s") = true ∧
    runP (Volume.color testColors testVolume .other) [] =
      (.ok (colorOtherState testVolume, PyRet.self),
        ["volume.color(): unknown input type:"]) := by
  have h := C2_malformed_input_errors testColors
  exact ⟨h.1 true testVolume testImage [1, 2, 3] "s" [] rfl (by decide),
    h.2.1 true testVolume testImage [1, 2, 3] "s" [] rfl (by decide),
    h.2.2.1 testVolume testImage [((1 : ℚ), (1 : ℚ), (1 : ℚ))] "w" [] rfl
      (by decide),
    h.2.2.2.1 testVolume testImage [((1 : ℚ), (1 : ℚ), (1 : ℚ))] "w" [] rfl
      (by decide),
    h.2.2.2.2.1 testVolume "funky" none none none none none true []
      (by decide) (by decide) (by decide) (by decide) (by decide)
      (by decide) (by decide),
    h.2.2.2.2.2.1 (fun d _ => d) testVolume "w" [] (by decide) (by decide)
      (by decide),
    h.2.2.2.2.2.2.1 true testVolume testImage (List.replicate 120 0) "s"
      rfl (by decide) (by decide),
    h.2.2.2.2.2.2.2 testVolume []⟩

/-- The mapper/input linkage invariant: the stored image data object is
exactly the input data of the volume's mapper. -/
def mapperLinked (v : VolumeState) : Prop :=
  v.mapper.inputData = some v.imagedata

theorem linked_update (v : VolumeState) (img : ImageData) :
    mapperLinked (Volume._update v img) := rfl

/-- Whenever the computation returns a volume, that volume is linked. -/
def RetLinked (x : Py VolumeState) : Prop :=
  ∀ log v' log', runP x log = (.ok v', log') → mapperLinked v'

theorem retLinked_pure (v : VolumeState) (h : mapperLinked v) :
    RetLinked (pure v) := by
  intro log v' log' he
  simp only [runP_pure] at he
  cases he
  exact h

theorem retLinked_bind {α : Type} (x : Py α) (f : α → Py VolumeState)
    (hf : ∀ a, RetLinked (f a)) : RetLinked (x >>= f) := by
  intro log v' log' h
  rw [runP_bind] at h
  split at h
  · exact hf _ _ _ _ h
  · cases h

theorem retLinked_throw {α : Type} (e : PyError) (f : α → Py VolumeState) :
    RetLinked ((throw e : Py α) >>= f) := by
  intro log v' log' h
  simp only [runP_bind, runP_throw] at h
  cases h

/-- Whenever the computation returns, the result's mapper input and image
data are those of `v` (the method touches neither). -/
def FieldsKept (v : VolumeState) (x : Py (VolumeState × PyRet)) : Prop :=
  ∀ log r log', runP x log = (.ok r, log') →
    r.1.mapper.inputData = v.mapper.inputData ∧ r.1.imagedata = v.imagedata

theorem fieldsKept_pure (v st : VolumeState) (ret : PyRet)
    (h1 : st.mapper.inputData = v.mapper.inputData)
    (h2 : st.imagedata = v.imagedata) : FieldsKept v (pure (st, ret)) := by
  intro log r log' h
  simp only [runP_pure] at h
  cases h
  exact ⟨h1, h2⟩

theorem fieldsKept_bind {α : Type} (v : VolumeState) (x : Py α)
    (f : α → Py (VolumeState × PyRet)) (hf : ∀ a, FieldsKept v (f a)) :
    FieldsKept v (x >>= f) := by
  intro log r log' h
  rw [runP_bind] at h
  split at h
  · exact hf _ _ _ _ h
  · cases h

theorem fieldsKept_weaken (v w : VolumeState) (x : Py (VolumeState × PyRet))
    (hx : FieldsKept w x) (h1 : w.mapper.inputData = v.mapper.inputData)
    (h2 : w.imagedata = v.imagedata) : FieldsKept v x := by
  intro log r log' h
  obtain ⟨a, b⟩ := hx log r log' h
  exact ⟨a.trans h1, b.trans h2⟩

theorem fieldsKept_bind2 (v : VolumeState) (x : Py (VolumeState × PyRet))
    (f : VolumeState × PyRet → Py (VolumeState × PyRet))
    (hx : FieldsKept v x) (hf : ∀ r, FieldsKept r.1 (f r)) :
    FieldsKept v (x >>= f) := by
  intro log r log' h
  rw [runP_bind] at h
  split at h
  next a log2 heq =>
    obtain ⟨e1, e2⟩ := hx _ _ _ heq
    obtain ⟨f1, f2⟩ := hf a _ _ _ h
    exact ⟨f1.trans e1, f2.trans e2⟩
  next e log2 heq => cases h

theorem jittering_fields (v : VolumeState) (s : Option Bool) :
    (Volume.jittering v s).1.mapper.inputData = v.mapper.inputData ∧
    (Volume.jittering v s).1.imagedata = v.imagedata := by
  cases s <;> simp only [Volume.jittering] <;> split_ifs <;> exact ⟨rfl, rfl⟩

set_option maxHeartbeats 1000000 in
theorem lighting_fieldsKept (cm : ColorsModule) (v : VolumeState)
    (style : String) (am di sp spw : Option ℚ) (sc : Option String)
    (en : Bool) :
    FieldsKept v (ActorBase.lighting cm v style am di sp spw sc en) := by
  simp only [ActorBase.lighting]
  split_ifs <;>
    exact fieldsKept_bind _ _ _ (fun a => fieldsKept_pure _ _ _ rfl rfl)

theorem mode_fieldsKept (cm : ColorsModule) (v : VolumeState) (m : ℤ) :
    FieldsKept v (Volume.mode cm v (some m)) := by
  simp only [Volume.mode]
  split_ifs with h0 h1
  · refine fieldsKept_bind2 _ _ _
      (fieldsKept_weaken _ _ _ (lighting_fieldsKept cm _ _ _ _ _ _ _ _)
        rfl rfl)
      (fun r => fieldsKept_pure _ _ _ (jittering_fields r.1 _).1
        (jittering_fields r.1 _).2)
  · exact fieldsKept_pure _ _ _ (jittering_fields _ _).1
      (jittering_fields _ _).2
  · exact fieldsKept_pure _ _ _ rfl rfl

theorem alpha_fieldsKept (v : VolumeState) (a : AlphaArg) :
    FieldsKept v (Volume.alpha v a) := by
  cases a <;> simp only [Volume.alpha] <;>
    exact fieldsKept_bind _ _ _ (fun otf => fieldsKept_pure _ _ _ rfl rfl)

theorem color_fieldsKept (cm : ColorsModule) (v : VolumeState)
    (c : ColorArg) : FieldsKept v (Volume.color cm v c) := by
  cases c <;> simp only [Volume.color] <;>
    first
      | exact fieldsKept_bind _ _ _ (fun ctf => fieldsKept_pure _ _ _ rfl rfl)
      | split_ifs <;>
          exact fieldsKept_bind _ _ _
            (fun ctf => fieldsKept_pure _ _ _ rfl rfl)

theorem alphaGradient_fieldsKept (v : VolumeState) (ag : Option AlphaArg) :
    FieldsKept v (Volume.alphaGradient v ag) := by
  cases ag with
  | none =>
      simp only [Volume.alphaGradient]
      exact fieldsKept_pure _ _ _ rfl rfl
  | some a =>
      cases a <;> simp only [Volume.alphaGradient] <;>
        exact fieldsKept_bind _ _ _
          (fun gotf => fieldsKept_pure _ _ _ rfl rfl)

/-- C8: mapper/input linkage is an invariant — after construction and after
every data-transforming operation that goes through `_update` (threshold,
crop, append, mirror, permuteAxes, resample, resize, normalize,
scaleVoxels), the stored image data and the mapper's input data are the
same object, for every behaviour of the wrapped filter algorithms. -/
theorem C8_mapper_input_linkage :
    (∀ (sem : ImageData → ThresholdMode → ℚ → ImageData) (v : VolumeState)
      (vmin vmax : Option ℚ) (rw0 : ℚ),
        mapperLinked (Volume.threshold sem v vmin vmax rw0)) ∧
    (∀ (sem : ImageData → ℤ × ℤ × ℤ × ℤ × ℤ × ℤ → ImageData)
      (v : VolumeState) (top bottom right left front back : Option ℚ)
      (VOI : Option (ℤ × ℤ × ℤ × ℤ × ℤ × ℤ)),
        mapperLinked (Volume.crop sem v top bottom right left front back
          VOI)) ∧
    (∀ (sem : List ImageData → Bool → ℤ → ImageData) (v : VolumeState)
      (volumes : List AppendInput) (axis : AxisArg) (pe : Bool),
        RetLinked (Volume.append sem v volumes axis pe)) ∧
    (∀ (flip : ImageData → ℕ → ImageData) (v : VolumeState) (axis : String),
        RetLinked (Volume.mirror flip v axis)) ∧
    (∀ (sem : ImageData → ℤ → ℤ → ℤ → ImageData) (v : VolumeState)
      (x y z : ℤ), mapperLinked (Volume.permuteAxes sem v x y z)) ∧
    (∀ (sem : ImageData → ImageResample → ImageData) (v : VolumeState)
      (ns : Triple) (ip : ℤ), mapperLinked ((Volume.resample sem v ns ip).1)) ∧
    (∀ (sem : ImageData → ℕ × ℕ × ℕ → ImageData) (v : VolumeState)
      (nd : ℕ × ℕ × ℕ), mapperLinked (Volume.resize sem v nd)) ∧
    (∀ (sem : ImageData → ImageData) (v : VolumeState),
        mapperLinked (Volume.normalize sem v)) ∧
    (∀ (sem : ImageData → ℚ → ImageData) (v : VolumeState) (sc : ℚ),
        mapperLinked (Volume.scaleVoxels sem v sc)) ∧
    (∀ (cm : ColorsModule) (img : ImageData) (c : ColorArg) (a0 : AlphaArg)
      (ag : Option AlphaArg) (m : ℤ) (o sp : Option Triple)
      (shp : Option (ℕ × ℕ × ℕ)) (mp : VolumeMapper) (pr : VolumeProperty),
        RetLinked (Volume.init cm img c a0 ag m o sp shp mp pr)) := by
  refine ⟨fun sem v vmin vmax rw0 => linked_update _ _,
    fun sem v a b c d e f VOI => linked_update _ _,
    fun sem v volumes axis pe => ?_,
    fun flip v axis => ?_,
    fun sem v x y z => linked_update _ _,
    fun sem v ns ip => linked_update _ _,
    fun sem v nd => linked_update _ _,
    fun sem v => linked_update _ _,
    fun sem v sc => linked_update _ _,
    fun cm img c a0 ag m o sp shp mp pr => ?_⟩
  · simp only [Volume.append]
    split <;> (try split_ifs) <;>
      exact retLinked_bind _ _
        (fun a => retLinked_pure _ (linked_update _ _))
  · simp only [Volume.mirror]
    split_ifs <;>
      first
        | exact retLinked_bind _ _
            (fun a => retLinked_pure _ (linked_update _ _))
        | exact retLinked_bind _ _ (fun a => retLinked_throw _ _)
  · intro log v' log' h
    simp only [Volume.init, runP_bind] at h
    split at h
    next r1 log1 heq1 =>
      split at h
      next r2 log2 heq2 =>
        split at h
        next r3 log3 heq3 =>
          split at h
          next r4 log4 heq4 =>
            simp only [runP_pure, Prod.mk.injEq, Except.ok.injEq] at h
            obtain ⟨hv, -⟩ := h
            subst hv
            obtain ⟨m1, m2⟩ := mode_fieldsKept cm _ m _ _ _ heq1
            obtain ⟨c1, c2⟩ := color_fieldsKept cm _ c _ _ _ heq2
            obtain ⟨a1, a2⟩ := alpha_fieldsKept _ a0 _ _ _ heq3
            obtain ⟨g1, g2⟩ := alphaGradient_fieldsKept _ ag _ _ _ heq4
            show r4.1.mapper.inputData = some r4.1.imagedata
            rw [g1, a1, c1, m1, g2, a2, c2, m2]
          next e log4 heq4 => cases h
        next e log3 heq3 => cases h
      next e log2 heq2 => cases h
    next e log1 heq1 => cases h

/-- Witness for C8 at concrete inputs: a threshold run, an append along z,
a mirror along x, and a full construction (blend mode 2, integer color,
constant opacity, no gradient opacity) on the test volume. -/
theorem C8_mapper_input_linkage_witness :
    mapperLinked (Volume.threshold (fun d _ _ => d) testVolume (some 1)
      none 0) ∧
    mapperLinked (Volume._update testVolume ImageData.empty) ∧
    mapperLinked (Volume._update testVolume testImage) ∧
    mapperLinked ((pyRun (Volume.init testColors testImage (ColorArg.int 5)
      (AlphaArg.scalar 1) none 2 none none none testMapper
      testProp)).1.toOption.getD testVolume) := by
  refine ⟨C8_mapper_input_linkage.1 _ testVolume (some 1) none 0, ?_, ?_, ?_⟩
  · exact C8_mapper_input_linkage.2.2.1 (fun _ _ _ => ImageData.empty)
      testVolume [] (AxisArg.int 2) false [] _ []
      (rfl :
        runP (Volume.append (fun _ _ _ => ImageData.empty) testVolume []
          (AxisArg.int 2) false) [] =
        (.ok (Volume._update testVolume ImageData.empty), []))
  · exact C8_mapper_input_linkage.2.2.2.1 (fun d _ => d) testVolume "x"
      [] _ []
      (rfl :
        runP (Volume.mirror (fun d _ => d) testVolume "x") [] =
        (.ok (Volume._update testVolume testImage), []))
  · exact C8_mapper_input_linkage.2.2.2.2.2.2.2.2.2 testColors testImage
      (ColorArg.int 5) (AlphaArg.scalar 1) none 2 none none none testMapper
      testProp [] _ []
      (rfl :
        runP (Volume.init testColors testImage (ColorArg.int 5)
          (AlphaArg.scalar 1) none 2 none none none testMapper testProp) [] =
        (.ok ((pyRun (Volume.init testColors testImage (ColorArg.int 5)
          (AlphaArg.scalar 1) none 2 none none none testMapper
          testProp)).1.toOption.getD testVolume), []))
